import Mathlib

/-!
Shallow embedding of the team-foul / penalty (bonus) tracking program
(`team_fouls.py`, `team_fouls_constants.py`, `team_fouls_utils.py`).

Python dictionaries keyed by period (or by foul ordinal) are embedded as
association lists `List (Nat × α)` with an overwrite-insert `aset` and a
lookup `aget`; the two global per-team dictionaries become explicit
`FoulDict` / `TeamRecord` values threaded through a `TrackerState`.
Game-clock strings "MM:SS" are carried pre-split as the two integer fields
`clockMin`/`clockSec` of an `Event` (the source's `str_to_time` does
`int(mm) * 60 + int(ss)`).  Floating-point possession arithmetic is
embedded over `ℚ` (the formula is exact decimal arithmetic; nothing in it
rounds).
-/

namespace TeamFouls

/-- `TEAM_FOUL_INDICATORS` of `team_fouls.py`: EVENTMSGACTIONTYPE values
that increment team fouls. -/
def TEAM_FOUL_INDICATORS : List Nat := [1, 2, 3, 5, 6, 9, 14, 15, 26, 27, 28, 29]

/-- `NON_SHOOTING_FOULS`: EVENTMSGACTIONTYPE values that produce FTAs only
when the fouling team is in the penalty. -/
def NON_SHOOTING_FOULS : List Nat := [1, 3, 27, 28]

/-- `TWO_MINUTES` (seconds). -/
def TWO_MINUTES : Nat := 120

/-- `QUARTERS`. -/
def QUARTERS : Nat := 4

/-- A league as the pair of per-league lengths the source looks up in the
`QUARTER_LENGTH` and `OT_LENGTH` dictionaries (both keyed by league id). -/
structure League where
  quarterLength : Nat
  otLength : Nat
deriving Repr, DecidableEq

/-- League id "00": `QUARTER_LENGTH["00"] = 720`, `OT_LENGTH["00"] = 300`. -/
def nbaLeague : League := ⟨720, 300⟩

/-- League id "10": `QUARTER_LENGTH["10"] = 600`, `OT_LENGTH["10"] = 300`. -/
def wnbaLeague : League := ⟨600, 300⟩

/-- League id "20": `QUARTER_LENGTH["20"] = 720`, `OT_LENGTH["20"] = 120`. -/
def gLeague : League := ⟨720, 120⟩

/-- One play-by-play row (the columns the program reads).  The clock string
"MM:SS" is carried pre-split into its two integer fields. -/
structure Event where
  eventnum : Nat
  period : Nat
  clockMin : Nat
  clockSec : Nat
  eventMsgType : Nat
  eventMsgActionType : Nat
  player1TeamId : Nat
  homeDescription : String
  visitorDescription : String
deriving Repr, DecidableEq

/-- `str_to_time`: seconds remaining in the period, `int(mm)*60 + int(ss)`.
The `period` argument is accepted and unused, as in the source. -/
def strToTime (clockMin clockSec : Nat) (period : Nat) : Nat :=
  clockMin * 60 + clockSec

/-- Overwrite-insert for an association list embedding a Python dict:
assigning to an existing key replaces its value, otherwise the key is
appended (insertion order preserved, matching dict iteration order). -/
def aset {α : Type} : List (Nat × α) → Nat → α → List (Nat × α)
  | [], k, v => [(k, v)]
  | (k0, v0) :: rest, k, v =>
    if k0 = k then (k, v) :: rest else (k0, v0) :: aset rest k v

/-- Dict lookup for the association lists of `aset`. -/
def aget {α : Type} : List (Nat × α) → Nat → Option α
  | [], _ => none
  | (k0, v0) :: rest, k => if k0 = k then some v0 else aget rest k

/-- The per-team transient foul state (`home_dict` / `away_dict`):
foul count, last-two-minutes foul count, time of the previous foul and the
penalty flag.  `lastFoulTime` is an integer number of seconds (the elapsed
time `last_foul_time - quarter_time` recorded by `add_fouls` can be any
integer, so it is kept in `Int`). -/
structure FoulDict where
  fouls : Nat
  l2m : Nat
  lastFoulTime : Int
  penalty : Bool
deriving Repr, DecidableEq

/-- One team's entry of `penalty_dict`: per-period foul totals, per-period
per-ordinal elapsed times, per-period free throws surrendered, the
game-clock time at which the penalty was entered (0 = never), and the event
number at which it was entered (absent = never). -/
structure TeamRecord where
  fouls : List (Nat × Nat)
  timeToFoul : List (Nat × List (Nat × Int))
  freeThrows : List (Nat × Nat)
  time : List (Nat × Nat)
  gameEvent : List (Nat × Nat)
deriving Repr, DecidableEq

/-- `initialize_status_variables` (named `initStatusVariables` here): fresh
foul dicts seeded with the quarter length, and zero-initialized period-1
entries of both teams' penalty records. -/
def initStatusVariables (league : League) (period : Nat) :
    FoulDict × FoulDict × TeamRecord × TeamRecord :=
  let homeDict : FoulDict := ⟨0, 0, (league.quarterLength : Int), false⟩
  let awayDict : FoulDict := ⟨0, 0, (league.quarterLength : Int), false⟩
  let homeRec : TeamRecord := ⟨[], [(period, [])], [(period, 0)], [(period, 0)], []⟩
  let awayRec : TeamRecord := ⟨[], [(period, [])], [(period, 0)], [(period, 0)], []⟩
  (homeDict, awayDict, homeRec, awayRec)

/-- `reset_status_variables`: run at a period turnover.  Seeds the fresh
foul dicts with `QUARTER_LENGTH if period <= 4 else OT_LENGTH` — note the
test reads `period` BEFORE the `period += 1` increment — then increments
the period and zero-initializes the new period's entries. -/
def resetStatusVariables (league : League) (period : Nat)
    (homeRec awayRec : TeamRecord) :
    FoulDict × FoulDict × TeamRecord × TeamRecord × Nat :=
  let lastFoulTime : Int :=
    if period ≤ 4 then (league.quarterLength : Int) else (league.otLength : Int)
  let homeDict : FoulDict := ⟨0, 0, lastFoulTime, false⟩
  let awayDict : FoulDict := ⟨0, 0, lastFoulTime, false⟩
  let period' := period + 1
  let homeRec :=
    { homeRec with
      time := aset homeRec.time period' 0
      freeThrows := aset homeRec.freeThrows period' 0
      timeToFoul := aset homeRec.timeToFoul period' [] }
  let awayRec :=
    { awayRec with
      time := aset awayRec.time period' 0
      freeThrows := aset awayRec.freeThrows period' 0
      timeToFoul := aset awayRec.timeToFoul period' [] }
  (homeDict, awayDict, homeRec, awayRec, period')

/-- `add_fouls`: increment the team's foul count, record the elapsed time
since the previous foul under the new foul ordinal, remember the current
clock, and bump the last-two-minutes count when the clock is ≤ 120. -/
def addFouls (foulDict : FoulDict) (period : Nat) (quarterTime : Nat)
    (teamRec : TeamRecord) : FoulDict × TeamRecord :=
  let fouls := foulDict.fouls + 1
  let inner := (aget teamRec.timeToFoul period).getD []
  let teamRec :=
    { teamRec with
      timeToFoul :=
        aset teamRec.timeToFoul period
          (aset inner fouls (foulDict.lastFoulTime - (quarterTime : Int))) }
  let foulDict :=
    { foulDict with
      fouls := fouls
      lastFoulTime := (quarterTime : Int)
      l2m := if quarterTime ≤ TWO_MINUTES then foulDict.l2m + 1 else foulDict.l2m }
  (foulDict, teamRec)

/-- `is_in_penalty`: threshold 4 in periods ≤ 4 and 3 in overtime; the team
is in the penalty when its foul count reaches the threshold or it has any
last-two-minutes foul.  The `penalty` argument is reassigned on every path
in the source, so it is never read; the embedding keeps it polymorphic
(the source even passes an integer at its one call site). -/
def is_in_penalty {α : Type} (foulDict : FoulDict) (period : Nat)
    (penalty : α) : Bool × Nat :=
  let period_fouls := if period ≤ 4 then 4 else 3
  (decide (period_fouls ≤ foulDict.fouls) || decide (1 ≤ foulDict.l2m), period_fouls)

/-- `update_status_variables`: processes one qualifying foul by `team_id`.
Adds the foul, computes penalty eligibility, credits two free throws when a
non-shooting foul occurs while the team is already flagged in the penalty,
and on first eligibility records the entry clock time and event number and
flips the flag. -/
def updateStatusVariables (play : Event) (period : Nat) (foulDict : FoulDict)
    (teamRec : TeamRecord) : FoulDict × TeamRecord :=
  let timeRemaining := strToTime play.clockMin play.clockSec period
  let p1 := addFouls foulDict period timeRemaining teamRec
  let foulDict := p1.1
  let teamRec := p1.2
  let checkPenalty := (is_in_penalty foulDict period timeRemaining).1
  let teamRec :=
    if foulDict.penalty && decide (play.eventMsgActionType ∈ NON_SHOOTING_FOULS) then
      { teamRec with
        freeThrows :=
          aset teamRec.freeThrows period ((aget teamRec.freeThrows period).getD 0 + 2) }
    else teamRec
  if checkPenalty && !foulDict.penalty then
    ({ foulDict with penalty := true },
     { teamRec with
       time := aset teamRec.time period timeRemaining
       gameEvent := aset teamRec.gameEvent period play.eventnum })
  else (foulDict, teamRec)

/-- Search for the regex `.T[0-9]` of `process_foul_df`: some position holds
any non-newline character followed by `T` and a digit. -/
def hasTeamFoulMarker : List Char → Bool
  | c :: t :: d :: rest =>
    (c != '\n' && t == 'T' && d.isDigit) || hasTeamFoulMarker (t :: d :: rest)
  | _ => false

/-- Literal substring test for `".PN" in desc`. -/
def containsPN : List Char → Bool
  | '.' :: 'P' :: 'N' :: _ => true
  | _ :: rest => containsPN rest
  | [] => false

/-- The `keep_charge` column of `process_foul_df` for an action-26 row:
either description matches `.T[0-9]` or contains ".PN". -/
def keepCharge (e : Event) : Bool :=
  hasTeamFoulMarker e.homeDescription.data || hasTeamFoulMarker e.visitorDescription.data ||
  containsPN e.homeDescription.data || containsPN e.visitorDescription.data

/-- `process_foul_df`: keep EVENTMSGTYPE 6 rows, dropping charge rows
(action 26) whose descriptions carry no team-foul marker. -/
def processFoulDf (events : List Event) : List Event :=
  let foulDf := events.filter (fun e => e.eventMsgType == 6)
  foulDf.filter (fun e =>
    e.eventMsgActionType != 26 || (e.eventMsgActionType == 26 && keepCharge e))

/-- The state threaded through `team_foul_tracker`'s loop: the tracked
period, both transient foul dicts and both penalty records. -/
structure TrackerState where
  period : Nat
  homeDict : FoulDict
  awayDict : FoulDict
  homeRec : TeamRecord
  awayRec : TeamRecord
deriving Repr, DecidableEq

/-- One iteration of `team_foul_tracker`'s loop over `foul_df`: on a period
mismatch, store both terminal foul counts and reset; then, for a qualifying
action type, update the foul dict and record of the side given by
`PLAYER1_TEAM_ID == home_id` (any other id is treated as the away side). -/
def trackerStep (league : League) (homeId : Nat) (st : TrackerState)
    (row : Event) : TrackerState :=
  let st :=
    if st.period ≠ row.period then
      let homeRec := { st.homeRec with fouls := aset st.homeRec.fouls st.period st.homeDict.fouls }
      let awayRec := { st.awayRec with fouls := aset st.awayRec.fouls st.period st.awayDict.fouls }
      let r := resetStatusVariables league st.period homeRec awayRec
      ⟨r.2.2.2.2, r.1, r.2.1, r.2.2.1, r.2.2.2.1⟩
    else st
  if row.eventMsgActionType ∈ TEAM_FOUL_INDICATORS then
    if row.player1TeamId == homeId then
      let p := updateStatusVariables row st.period st.homeDict st.homeRec
      { st with homeDict := p.1, homeRec := p.2 }
    else
      let p := updateStatusVariables row st.period st.awayDict st.awayRec
      { st with awayDict := p.1, awayRec := p.2 }
  else st

/-- The state `team_foul_tracker` starts its loop from (period 1,
`initialize_status_variables`). -/
def initialTrackerState (league : League) : TrackerState :=
  let r := initStatusVariables league 1
  ⟨1, r.1, r.2.1, r.2.2.1, r.2.2.2⟩

/-- The loop of `team_foul_tracker` over a list of foul rows. -/
def trackerRun (league : League) (homeId : Nat) (rows : List Event) : TrackerState :=
  rows.foldl (trackerStep league homeId) (initialTrackerState league)

/-- The post-loop finalization of `team_foul_tracker`: store both teams'
foul totals for the final period. -/
def finalizeTracker (st : TrackerState) : TrackerState :=
  { st with
    homeRec := { st.homeRec with fouls := aset st.homeRec.fouls st.period st.homeDict.fouls }
    awayRec := { st.awayRec with fouls := aset st.awayRec.fouls st.period st.awayDict.fouls } }

/-- `team_foul_tracker` on an already-pulled play-by-play list: `None` (here
`none`) when the play-by-play has no rows, otherwise the two penalty
records, the winner id and the play-by-play passed through. -/
def teamFoulTracker (league : League) (homeId awayId : Nat) (homeWinner : Bool)
    (events : List Event) : Option (TeamRecord × TeamRecord × Nat × List Event) :=
  if events.length > 0 then
    let foulDf := processFoulDf events
    let st := finalizeTracker (trackerRun league homeId foulDf)
    let winnerId := if homeWinner then homeId else awayId
    some (st.homeRec, st.awayRec, winnerId, events)
  else
    none

/-- A play-by-play row together with the `SHOOTING_TEAM` column that
`persist_shooting_team` adds (null before the first shot of the game). -/
structure AnnEvent where
  ev : Event
  shootingTeam : Option Nat
deriving Repr, DecidableEq

/-- The loop body of `persist_shooting_team`: shot events
(EVENTMSGTYPE 1, 2 or 3) update the carried shooting team; every row gets
the carried value (a shot row gets its own team). -/
def persistShootingTeamGo (shootingTeam : Option Nat) : List Event → List AnnEvent
  | [] => []
  | row :: rest =>
    if row.eventMsgType ∈ [1, 2, 3] then
      ⟨row, some row.player1TeamId⟩ :: persistShootingTeamGo (some row.player1TeamId) rest
    else
      ⟨row, shootingTeam⟩ :: persistShootingTeamGo shootingTeam rest

/-- `persist_shooting_team`, starting from `shooting_team = None`. -/
def persistShootingTeam (events : List Event) : List AnnEvent :=
  persistShootingTeamGo none events

/-- The `FGA` indicator of `possession_types`: `EVENTMSGTYPE <= 2`. -/
def fgaInd (a : AnnEvent) : Nat :=
  if a.ev.eventMsgType ≤ 2 then 1 else 0

/-- The `FTA` indicator of `possession_types`: `EVENTMSGTYPE == 3`. -/
def ftaInd (a : AnnEvent) : Nat :=
  if a.ev.eventMsgType = 3 then 1 else 0

/-- The `TOV` indicator of `possession_types`: `EVENTMSGTYPE == 5`. -/
def tovInd (a : AnnEvent) : Nat :=
  if a.ev.eventMsgType = 5 then 1 else 0

/-- The `OREB` indicator of `possession_types`: a rebound
(`EVENTMSGTYPE == 4`) whose rebounding team equals the carried shooting
team (never satisfied while the shooting team is still null). -/
def orebInd (a : AnnEvent) : Nat :=
  if a.ev.eventMsgType = 4 ∧ some a.ev.player1TeamId = a.shootingTeam then 1 else 0

/-- Substring prefix test used by `containsSub`. -/
def startsWith : List Char → List Char → Bool
  | [], _ => true
  | _ :: _, [] => false
  | n :: ns, h :: hs => n == h && startsWith ns hs

/-- Python's `needle in haystack` substring test. -/
def containsSub (needle : List Char) : List Char → Bool
  | [] => startsWith needle []
  | h :: hs => startsWith needle (h :: hs) || containsSub needle hs

/-- The `POINT` column of `calc_pts_and_poss`: 3 for a made field goal
marked " 3PT ", 2 for any other made field goal, 1 for a free-throw row
whose description has no "MISS " marker, else 0.  `useHomeDesc` selects the
description column (`off_desc`/`def_desc`). -/
def pointVal (useHomeDesc : Bool) (a : AnnEvent) : Nat :=
  let desc := if useHomeDesc then a.ev.homeDescription else a.ev.visitorDescription
  if a.ev.eventMsgType = 1 ∧ containsSub " 3PT ".data desc.data then 3
  else if a.ev.eventMsgType = 1 then 2
  else if a.ev.eventMsgType = 3 ∧ ¬ containsSub "MISS ".data desc.data then 1
  else 0

/-- `possession_and_pts_estimate`: points, estimated possessions
`0.976 * (FGA + 0.44*FTA - OREB + TOV)` (exact, in `ℚ`) and turnovers for a
segment of rows whose `POINT` column is computed against the description
side `useHomeDesc`. -/
def possessionAndPtsEstimate (useHomeDesc : Bool) (rows : List AnnEvent) :
    Nat × ℚ × Nat :=
  let poss : ℚ :=
    (0.976 : ℚ) * ((((rows.map fgaInd).sum : Nat) : ℚ) +
      (0.44 : ℚ) * (((rows.map ftaInd).sum : Nat) : ℚ) -
      (((rows.map orebInd).sum : Nat) : ℚ) +
      (((rows.map tovInd).sum : Nat) : ℚ))
  ((rows.map (pointVal useHomeDesc)).sum, poss, (rows.map tovInd).sum)

/-- The points/possessions/turnovers of one segment. -/
structure SegStats where
  points : Nat
  poss : ℚ
  tov : Nat
deriving Repr, DecidableEq

/-- The nested return dictionary of `calc_pts_and_poss`. -/
structure RatingDict where
  offPenalty : SegStats
  offNoPenalty : SegStats
  defPenalty : SegStats
  defNoPenalty : SegStats
deriving Repr, DecidableEq

/-- `calc_pts_and_poss` on the annotated play-by-play: offense is the rows
of `teamId` in `period`, defense all other rows of `period`; with no
penalty-entry event number the whole period is the no-penalty segment,
otherwise rows split on `EVENTNUM` below / at-or-above the entry number. -/
def calcPtsAndPoss (ann : List AnnEvent) (teamId : Nat) (eventNum : Option Nat)
    (period : Nat) (home : Bool) : RatingDict :=
  let offDf := ann.filter (fun a => a.ev.player1TeamId == teamId && a.ev.period == period)
  let defDf := ann.filter (fun a => a.ev.player1TeamId != teamId && a.ev.period == period)
  match eventNum with
  | none =>
    let offR := possessionAndPtsEstimate home offDf
    let defR := possessionAndPtsEstimate (!home) defDf
    ⟨⟨0, 0, 0⟩, ⟨offR.1, offR.2.1, offR.2.2⟩, ⟨0, 0, 0⟩, ⟨defR.1, defR.2.1, defR.2.2⟩⟩
  | some n =>
    let offNpR := possessionAndPtsEstimate home (offDf.filter (fun a => a.ev.eventnum < n))
    let defNpR := possessionAndPtsEstimate (!home) (defDf.filter (fun a => a.ev.eventnum < n))
    let offPR := possessionAndPtsEstimate home (offDf.filter (fun a => n ≤ a.ev.eventnum))
    let defPR := possessionAndPtsEstimate (!home) (defDf.filter (fun a => n ≤ a.ev.eventnum))
    ⟨⟨offPR.1, offPR.2.1, offPR.2.2⟩, ⟨offNpR.1, offNpR.2.1, offNpR.2.2⟩,
     ⟨defPR.1, defPR.2.1, defPR.2.2⟩, ⟨defNpR.1, defNpR.2.1, defNpR.2.2⟩⟩

/-- Pointwise sum of segment stats (the per-period `groupby ... sum` of
`process_pbp`). -/
def addSeg (x y : SegStats) : SegStats :=
  ⟨x.points + y.points, x.poss + y.poss, x.tov + y.tov⟩

/-- A team's offensive aggregates over all periods, in and out of the
penalty. -/
structure OffAgg where
  offPenalty : SegStats
  offNoPenalty : SegStats
deriving Repr, DecidableEq

/-- `max(pbp_df["PERIOD"])` (0 for an empty list; the source is only run on
non-empty play-by-play). -/
def maxPeriodOf (events : List Event) : Nat :=
  (events.map (fun e => e.period)).foldl max 0

/-- The per-team accumulation of `process_pbp`: for each period 1..max, the
penalty-entry event number is looked up in the OPPONENT's `game_event`
dict, `calc_pts_and_poss` is run, and the offensive halves are summed. -/
def offAggFor (ann : List AnnEvent) (maxPeriod : Nat) (team : Nat)
    (otherRec : TeamRecord) (home : Bool) : OffAgg :=
  (List.range' 1 maxPeriod).foldl
    (fun acc p =>
      let rd := calcPtsAndPoss ann team (aget otherRec.gameEvent p) p home
      ⟨addSeg acc.offPenalty rd.offPenalty, addSeg acc.offNoPenalty rd.offNoPenalty⟩)
    ⟨⟨0, 0, 0⟩, ⟨0, 0, 0⟩⟩

/-- One row of the `rating_df` that `process_pbp` returns. -/
structure RatingRow where
  teamId : Nat
  offPointsP : Nat
  offPossP : ℚ
  offTovP : Nat
  defPointsP : Nat
  defPossP : ℚ
  defTovP : Nat
  offPointsNp : Nat
  offPossNp : ℚ
  offTovNp : Nat
  defPointsNp : Nat
  defPossNp : ℚ
  defTovNp : Nat
deriving Repr, DecidableEq

/-- `process_pbp`: annotate the play-by-play with the shooting team, compute
each team's offensive aggregates (the teams list is `[home_id, away_id]`,
the insertion order of `penalty_dict`), and emit the two rating rows, each
team's defensive columns mirroring the other team's offensive columns. -/
def processPbp (events : List Event) (homeId awayId : Nat)
    (homeRec awayRec : TeamRecord) : RatingRow × RatingRow :=
  let ann := persistShootingTeam events
  let maxPeriod := maxPeriodOf events
  let agg0 := offAggFor ann maxPeriod homeId awayRec (homeId == homeId)
  let agg1 := offAggFor ann maxPeriod awayId homeRec (awayId == homeId)
  (⟨homeId,
    agg0.offPenalty.points, agg0.offPenalty.poss, agg0.offPenalty.tov,
    agg1.offPenalty.points, agg1.offPenalty.poss, agg1.offPenalty.tov,
    agg0.offNoPenalty.points, agg0.offNoPenalty.poss, agg0.offNoPenalty.tov,
    agg1.offNoPenalty.points, agg1.offNoPenalty.poss, agg1.offNoPenalty.tov⟩,
   ⟨awayId,
    agg1.offPenalty.points, agg1.offPenalty.poss, agg1.offPenalty.tov,
    agg0.offPenalty.points, agg0.offPenalty.poss, agg0.offPenalty.tov,
    agg1.offNoPenalty.points, agg1.offNoPenalty.poss, agg1.offNoPenalty.tov,
    agg0.offNoPenalty.points, agg0.offNoPenalty.poss, agg0.offNoPenalty.tov⟩)

/-- `np.sum` over the values of a per-period dict. -/
def sumVals (m : List (Nat × Nat)) : Nat :=
  (m.map (fun kv => kv.2)).sum

/-- One team's row of the `full_df` that `process_output` builds (the
normalized time-in-bonus ratios are left to the caller; the claim-relevant
fields are embedded). -/
structure OutputRow where
  teamId : Nat
  gameLength : Int
  foulsCommitted : Nat
  foulsAgainst : Nat
  oppTib : Nat
  ownTib : Nat
  ftAllowed : Nat
  ftGained : Nat
  win : Nat
deriving Repr, DecidableEq

/-- One iteration of `process_output`'s loop: the row for `team` with
opponent `otherTeam`.  `game_length = QUARTERS * quarter_time + ot_time *
(len(team_dict["fouls"]) - QUARTERS)` (computed in `Int`, as the Python
subtraction may be negative); defensive quantities come from the team's own
record and offensive ones from the opponent's. -/
def processOutputRow (league : League) (winnerId team otherTeam : Nat)
    (teamRec otherRec : TeamRecord) : OutputRow :=
  { teamId := team
    gameLength := (QUARTERS : Int) * (league.quarterLength : Int) +
      (league.otLength : Int) * ((teamRec.fouls.length : Int) - (QUARTERS : Int))
    foulsCommitted := sumVals teamRec.fouls
    foulsAgainst := sumVals otherRec.fouls
    oppTib := sumVals teamRec.time
    ownTib := sumVals otherRec.time
    ftAllowed := sumVals teamRec.freeThrows
    ftGained := sumVals otherRec.freeThrows
    win := if team = winnerId then 1 else 0 }

/-- Helper to build a concrete play-by-play row (empty descriptions). -/
def mkEvent (eventnum period clockMin clockSec msgType actionType teamId : Nat) : Event :=
  ⟨eventnum, period, clockMin, clockSec, msgType, actionType, teamId, "", ""⟩

/-- A freshly initialized period-1 team record. -/
def exRecord : TeamRecord := ⟨[], [(1, [])], [(1, 0)], [(1, 0)], []⟩

/-- A team record whose per-period foul dict holds five periods
(a one-overtime game). -/
def exRec5 : TeamRecord := ⟨[(1, 3), (2, 4), (3, 2), (4, 5), (5, 1)], [], [], [], []⟩

/-- A reachable-shaped mid-period state: the home team (id 10) has 4 fouls
in period 1 and is flagged in the penalty; the away team has none. -/
def exStatePenalty : TrackerState :=
  ⟨1, ⟨4, 0, 300, true⟩, ⟨0, 0, 720, false⟩, exRecord, exRecord⟩

/-- A period-1 non-shooting team foul (action 1) by team 10 at 4:00. -/
def exRowNonShooting : Event := mkEvent 50 1 4 0 6 1 10

/-- A period-2 team foul (action 2) by team 10. -/
def exRowP2 : Event := mkEvent 7 2 10 0 6 2 10

/-- A period-3 team foul (action 2) by team 10 — two periods ahead of a
tracker still in period 1. -/
def exRowP3 : Event := mkEvent 5 3 11 0 6 2 10

/-- A missed field goal row (EVENTMSGTYPE 2): one FGA. -/
def c8ShotRow : AnnEvent := ⟨mkEvent 1 1 10 0 2 0 7, none⟩

/-- A free-throw row (EVENTMSGTYPE 3): one FTA. -/
def c8FtRow : AnnEvent := ⟨mkEvent 2 1 9 0 3 0 7, none⟩

/-- A rebound row (EVENTMSGTYPE 4) by the carried shooting team: one OREB. -/
def c8RebRow : AnnEvent := ⟨mkEvent 3 1 8 0 4 0 7, some 7⟩

/-- A turnover row (EVENTMSGTYPE 5): one TOV. -/
def c8TovRow : AnnEvent := ⟨mkEvent 4 1 7 0 5 0 7, none⟩

/-- A segment with FGA=10, FTA=4, OREB=2, TOV=3 (the spec's worked
example). -/
def c8Rows : List AnnEvent :=
  List.replicate 10 c8ShotRow ++ List.replicate 4 c8FtRow ++
    List.replicate 2 c8RebRow ++ List.replicate 3 c8TovRow

/-- The flag/count agreement `is_in_penalty` is meant to maintain: the
stored penalty flag equals the eligibility recomputed from the foul and
last-two-minutes counts for the given period. -/
def flagConsistent (fd : FoulDict) (period : Nat) : Prop :=
  fd.penalty = (is_in_penalty fd period fd.penalty).1

/-- `flagConsistent` for both teams of a tracker state, at the tracked
period. -/
def penaltyFlagInv (st : TrackerState) : Prop :=
  flagConsistent st.homeDict st.period ∧ flagConsistent st.awayDict st.period

end TeamFouls

namespace TeamFouls

/-! ## Basic lemmas about the association-list dictionaries -/

theorem aget_aset_self {α : Type} (m : List (Nat × α)) (k : Nat) (v : α) :
    aget (aset m k v) k = some v := by
  induction m with
  | nil => simp [aset, aget]
  | cons head rest ih =>
    obtain ⟨k0, v0⟩ := head
    by_cases h : k0 = k
    · simp [aset, aget, h]
    · simp [aset, aget, h, ih]

theorem aget_aset_ne {α : Type} (m : List (Nat × α)) (k q : Nat) (v : α)
    (h : k ≠ q) : aget (aset m k v) q = aget m q := by
  induction m with
  | nil => simp [aset, aget, h]
  | cons head rest ih =>
    obtain ⟨k0, v0⟩ := head
    by_cases h0 : k0 = k
    · subst h0
      simp [aset, aget, h]
    · simp [aset, h0]
      by_cases h1 : k0 = q <;> simp [aget, h1, ih]

/-! ## Shape lemmas for the state-machine steps -/

theorem addFouls_fst (fd : FoulDict) (period t : Nat) (rec : TeamRecord) :
    (addFouls fd period t rec).1 =
      ⟨fd.fouls + 1, if t ≤ TWO_MINUTES then fd.l2m + 1 else fd.l2m,
        (t : Int), fd.penalty⟩ := rfl

theorem addFouls_snd (fd : FoulDict) (period t : Nat) (rec : TeamRecord) :
    (addFouls fd period t rec).2 =
      { rec with
        timeToFoul :=
          aset rec.timeToFoul period
            (aset ((aget rec.timeToFoul period).getD []) (fd.fouls + 1)
              (fd.lastFoulTime - (t : Int))) } := rfl

theorem update_fst (play : Event) (period : Nat) (fd : FoulDict) (rec : TeamRecord) :
    (updateStatusVariables play period fd rec).1 =
      (let t := strToTime play.clockMin play.clockSec period
       let fd' := (addFouls fd period t rec).1
       if (is_in_penalty fd' period t).1 && !fd'.penalty then
         { fd' with penalty := true }
       else fd') := by
  simp only [updateStatusVariables]
  split <;> rfl

theorem update_snd (play : Event) (period : Nat) (fd : FoulDict) (rec : TeamRecord) :
    (updateStatusVariables play period fd rec).2 =
      (let t := strToTime play.clockMin play.clockSec period
       let p1 := addFouls fd period t rec
       let rec' :=
         if p1.1.penalty && decide (play.eventMsgActionType ∈ NON_SHOOTING_FOULS) then
           { p1.2 with
             freeThrows :=
               aset p1.2.freeThrows period ((aget p1.2.freeThrows period).getD 0 + 2) }
         else p1.2
       if (is_in_penalty p1.1 period t).1 && !p1.1.penalty then
         { rec' with
           time := aset rec'.time period t
           gameEvent := aset rec'.gameEvent period play.eventnum }
       else rec') := by
  simp only [updateStatusVariables]
  split <;> rfl

/-- The first component of `is_in_penalty` never reads the `penalty`
argument. -/
theorem is_in_penalty_fst_irrel {α β : Type} (fd : FoulDict) (p : Nat) (a : α) (b : β) :
    (is_in_penalty fd p a).1 = (is_in_penalty fd p b).1 := rfl

/-- A zeroed foul dict is flag-consistent for every period. -/
theorem flagConsistent_zero (lt : Int) (p : Nat) :
    flagConsistent ⟨0, 0, lt, false⟩ p := by
  by_cases h : p ≤ 4 <;> simp [flagConsistent, is_in_penalty, h]

/-- Processing a foul keeps the flag/count agreement: after
`update_status_variables`, the stored flag again equals the recomputed
eligibility. -/
theorem update_flagConsistent (play : Event) (period : Nat) (fd : FoulDict)
    (rec : TeamRecord) (h : flagConsistent fd period) :
    flagConsistent (updateStatusVariables play period fd rec).1 period := by
  have h' : fd.penalty = true →
      ((if period ≤ 4 then 4 else 3) ≤ fd.fouls ∨ 1 ≤ fd.l2m) := by
    intro hp
    unfold flagConsistent is_in_penalty at h
    rw [hp] at h
    simpa using h.symm
  unfold flagConsistent
  rw [update_fst]
  simp only [addFouls_fst, is_in_penalty]
  have hLge : fd.l2m ≤
      (if strToTime play.clockMin play.clockSec period ≤ TWO_MINUTES then
        fd.l2m + 1 else fd.l2m) := by
    split <;> omega
  by_cases hth : (if period ≤ 4 then 4 else 3) ≤ fd.fouls + 1 <;>
  by_cases hlL : 1 ≤
      (if strToTime play.clockMin play.clockSec period ≤ TWO_MINUTES then
        fd.l2m + 1 else fd.l2m) <;>
  cases hp : fd.penalty <;>
  simp [hth, hlL, hp] <;>
  (rcases h' hp with hx | hx <;> omega)

/-- Processing a foul never clears an already-set penalty flag. -/
theorem update_keeps_penalty (play : Event) (period : Nat) (fd : FoulDict)
    (rec : TeamRecord) (h : fd.penalty = true) :
    (updateStatusVariables play period fd rec).1.penalty = true := by
  rw [update_fst]
  simp only [addFouls_fst]
  split <;> simp [h]

/-- One tracker step preserves the flag/count agreement for both teams. -/
theorem trackerStep_penaltyFlagInv (league : League) (homeId : Nat)
    (st : TrackerState) (row : Event) (h : penaltyFlagInv st) :
    penaltyFlagInv (trackerStep league homeId st row) := by
  unfold trackerStep
  by_cases hper : st.period ≠ row.period
  · rw [if_pos hper]
    simp only [resetStatusVariables]
    by_cases hmem : row.eventMsgActionType ∈ TEAM_FOUL_INDICATORS
    · rw [if_pos hmem]
      cases hside : (row.player1TeamId == homeId)
      · simp only [Bool.false_eq_true, if_false]
        exact ⟨flagConsistent_zero _ _, update_flagConsistent _ _ _ _ (flagConsistent_zero _ _)⟩
      · simp only [if_true]
        exact ⟨update_flagConsistent _ _ _ _ (flagConsistent_zero _ _), flagConsistent_zero _ _⟩
    · rw [if_neg hmem]
      exact ⟨flagConsistent_zero _ _, flagConsistent_zero _ _⟩
  · rw [if_neg hper]
    by_cases hmem : row.eventMsgActionType ∈ TEAM_FOUL_INDICATORS
    · rw [if_pos hmem]
      cases hside : (row.player1TeamId == homeId)
      · simp only [Bool.false_eq_true, if_false]
        exact ⟨h.1, update_flagConsistent _ _ _ _ h.2⟩
      · simp only [if_true]
        exact ⟨update_flagConsistent _ _ _ _ h.1, h.2⟩
    · rw [if_neg hmem]
      exact h

/-- The flag/count agreement holds along any fold of tracker steps. -/
theorem foldl_penaltyFlagInv (league : League) (homeId : Nat)
    (rows : List Event) (st : TrackerState) (h : penaltyFlagInv st) :
    penaltyFlagInv (rows.foldl (trackerStep league homeId) st) := by
  induction rows generalizing st with
  | nil => exact h
  | cons row rest ih =>
    exact ih _ (trackerStep_penaltyFlagInv league homeId st row h)

/-- The initial tracker state is flag-consistent. -/
theorem initial_penaltyFlagInv (league : League) :
    penaltyFlagInv (initialTrackerState league) :=
  ⟨flagConsistent_zero _ _, flagConsistent_zero _ _⟩

/-- Explicit form of `resetStatusVariables`. -/
theorem reset_shape (league : League) (p : Nat) (hr ar : TeamRecord) :
    resetStatusVariables league p hr ar =
      (⟨0, 0, if p ≤ 4 then (league.quarterLength : Int) else (league.otLength : Int), false⟩,
       ⟨0, 0, if p ≤ 4 then (league.quarterLength : Int) else (league.otLength : Int), false⟩,
       { hr with
         time := aset hr.time (p + 1) 0
         freeThrows := aset hr.freeThrows (p + 1) 0
         timeToFoul := aset hr.timeToFoul (p + 1) [] },
       { ar with
         time := aset ar.time (p + 1) 0
         freeThrows := aset ar.freeThrows (p + 1) 0
         timeToFoul := aset ar.timeToFoul (p + 1) [] },
       p + 1) := rfl

/-- A tracker step within the tracked period skips the reset. -/
theorem trackerStep_of_same_period (league : League) (homeId : Nat)
    (st : TrackerState) (row : Event) (h : st.period = row.period) :
    trackerStep league homeId st row =
      (if row.eventMsgActionType ∈ TEAM_FOUL_INDICATORS then
        if row.player1TeamId == homeId then
          { st with
            homeDict := (updateStatusVariables row st.period st.homeDict st.homeRec).1
            homeRec := (updateStatusVariables row st.period st.homeDict st.homeRec).2 }
        else
          { st with
            awayDict := (updateStatusVariables row st.period st.awayDict st.awayRec).1
            awayRec := (updateStatusVariables row st.period st.awayDict st.awayRec).2 }
      else st) := by
  unfold trackerStep
  rw [if_neg (show ¬ st.period ≠ row.period by omega)]

/-- The intermediate state a period-mismatch step builds before processing
the row: terminal foul counts stored, fresh foul dicts, period incremented
by one, zeroed entries for the new period. -/
def turnoverState (league : League) (st : TrackerState) : TrackerState :=
  ⟨st.period + 1,
   ⟨0, 0, if st.period ≤ 4 then (league.quarterLength : Int) else (league.otLength : Int), false⟩,
   ⟨0, 0, if st.period ≤ 4 then (league.quarterLength : Int) else (league.otLength : Int), false⟩,
   { st.homeRec with
     fouls := aset st.homeRec.fouls st.period st.homeDict.fouls
     time := aset st.homeRec.time (st.period + 1) 0
     freeThrows := aset st.homeRec.freeThrows (st.period + 1) 0
     timeToFoul := aset st.homeRec.timeToFoul (st.period + 1) [] },
   { st.awayRec with
     fouls := aset st.awayRec.fouls st.period st.awayDict.fouls
     time := aset st.awayRec.time (st.period + 1) 0
     freeThrows := aset st.awayRec.freeThrows (st.period + 1) 0
     timeToFoul := aset st.awayRec.timeToFoul (st.period + 1) [] }⟩

/-- A tracker step at a period mismatch resets into `turnoverState` and
then processes the row there. -/
theorem trackerStep_of_new_period (league : League) (homeId : Nat)
    (st : TrackerState) (row : Event) (h : st.period ≠ row.period) :
    trackerStep league homeId st row =
      (let st1 := turnoverState league st
       if row.eventMsgActionType ∈ TEAM_FOUL_INDICATORS then
        if row.player1TeamId == homeId then
          { st1 with
            homeDict := (updateStatusVariables row st1.period st1.homeDict st1.homeRec).1
            homeRec := (updateStatusVariables row st1.period st1.homeDict st1.homeRec).2 }
        else
          { st1 with
            awayDict := (updateStatusVariables row st1.period st1.awayDict st1.awayRec).1
            awayRec := (updateStatusVariables row st1.period st1.awayDict st1.awayRec).2 }
       else st1) := by
  unfold trackerStep
  rw [if_pos h]
  rfl

/-- When the team is already flagged in the penalty, processing a foul
leaves the bonus-entry marker dictionaries untouched. -/
theorem update_marker_unchanged_of_penalty {play : Event} {period : Nat}
    {fd : FoulDict} {rec : TeamRecord} (h : fd.penalty = true) :
    (updateStatusVariables play period fd rec).2.time = rec.time ∧
    (updateStatusVariables play period fd rec).2.gameEvent = rec.gameEvent := by
  rw [update_snd]
  simp only [addFouls_fst, addFouls_snd, h, Bool.not_true, Bool.and_false,
    Bool.false_eq_true, if_false]
  constructor <;> split <;> rfl

/-- Processing a foul at `period` never changes the marker dictionaries at
any other key. -/
theorem update_marker_other_period {play : Event} {period : Nat}
    {fd : FoulDict} {rec : TeamRecord} {q : Nat} (hq : q ≠ period) :
    aget (updateStatusVariables play period fd rec).2.time q = aget rec.time q ∧
    aget (updateStatusVariables play period fd rec).2.gameEvent q = aget rec.gameEvent q := by
  rw [update_snd]
  simp only [addFouls_fst, addFouls_snd]
  constructor <;>
    simp [apply_ite TeamRecord.time, apply_ite TeamRecord.gameEvent,
      apply_ite (fun m => aget m q), aget_aset_ne _ _ _ _ (fun he => hq he.symm)]

/-- The free-throw award of `update_status_variables`: a non-shooting foul
by a team already flagged in the penalty adds exactly 2 to its period's
free-throw entry. -/
theorem update_freeThrows_award {play : Event} {period : Nat} {fd : FoulDict}
    {rec : TeamRecord} (h1 : fd.penalty = true)
    (h2 : play.eventMsgActionType ∈ NON_SHOOTING_FOULS) :
    (updateStatusVariables play period fd rec).2.freeThrows =
      aset rec.freeThrows period ((aget rec.freeThrows period).getD 0 + 2) := by
  rw [update_snd]
  simp only [addFouls_fst, addFouls_snd, h1, Bool.true_and, decide_eq_true_eq,
    if_pos h2]
  simp [apply_ite TeamRecord.freeThrows]

/-- With the penalty flag still down, or for a shooting-foul subtype,
`update_status_variables` leaves the free-throw dictionary unchanged. -/
theorem update_freeThrows_noaward {play : Event} {period : Nat} {fd : FoulDict}
    {rec : TeamRecord}
    (h : fd.penalty = false ∨ play.eventMsgActionType ∉ NON_SHOOTING_FOULS) :
    (updateStatusVariables play period fd rec).2.freeThrows = rec.freeThrows := by
  rw [update_snd]
  simp only [addFouls_fst, addFouls_snd]
  have hc : (fd.penalty && decide (play.eventMsgActionType ∈ NON_SHOOTING_FOULS)) = false := by
    rcases h with h | h <;> simp [h]
  simp only [hc]
  simp [apply_ite TeamRecord.freeThrows]

/-- Processing a foul never touches the per-period foul-total dictionary
of the penalty record. -/
theorem update_rec_fouls {play : Event} {period : Nat} {fd : FoulDict}
    {rec : TeamRecord} :
    (updateStatusVariables play period fd rec).2.fouls = rec.fouls := by
  rw [update_snd]
  simp only [addFouls_fst, addFouls_snd]
  simp [apply_ite TeamRecord.fouls]

/-- A same-period step leaves the tracked period unchanged. -/
theorem trackerStep_period_same (league : League) (homeId : Nat)
    (st : TrackerState) (row : Event) (h : st.period = row.period) :
    (trackerStep league homeId st row).period = st.period := by
  rw [trackerStep_of_same_period league homeId st row h]
  by_cases hmem : row.eventMsgActionType ∈ TEAM_FOUL_INDICATORS
  · rw [if_pos hmem]
    cases hside : (row.player1TeamId == homeId) <;> simp
  · rw [if_neg hmem]

/-- A period-mismatch step increments the tracked period by exactly one. -/
theorem trackerStep_period_new (league : League) (homeId : Nat)
    (st : TrackerState) (row : Event) (h : st.period ≠ row.period) :
    (trackerStep league homeId st row).period = st.period + 1 := by
  rw [trackerStep_of_new_period league homeId st row h]
  by_cases hmem : row.eventMsgActionType ∈ TEAM_FOUL_INDICATORS
  · rw [if_pos hmem]
    cases hside : (row.player1TeamId == homeId) <;> simp [turnoverState]
  · rw [if_neg hmem]
    rfl

/-- No tracker step changes either team's bonus-entry dictionaries at a key
other than the post-step tracked period. -/
theorem step_marker_other_q (league : League) (homeId : Nat)
    (st : TrackerState) (row : Event) (q : Nat)
    (hq : q ≠ (trackerStep league homeId st row).period) :
    (aget (trackerStep league homeId st row).homeRec.time q = aget st.homeRec.time q ∧
     aget (trackerStep league homeId st row).homeRec.gameEvent q = aget st.homeRec.gameEvent q) ∧
    (aget (trackerStep league homeId st row).awayRec.time q = aget st.awayRec.time q ∧
     aget (trackerStep league homeId st row).awayRec.gameEvent q = aget st.awayRec.gameEvent q) := by
  by_cases hper : st.period = row.period
  · have hq' : q ≠ st.period := by
      rwa [trackerStep_period_same league homeId st row hper] at hq
    rw [trackerStep_of_same_period league homeId st row hper]
    by_cases hmem : row.eventMsgActionType ∈ TEAM_FOUL_INDICATORS
    · rw [if_pos hmem]
      cases hside : (row.player1TeamId == homeId) <;>
        refine ⟨⟨?_, ?_⟩, ⟨?_, ?_⟩⟩ <;>
        simp [(update_marker_other_period hq').1, (update_marker_other_period hq').2]
    · rw [if_neg hmem]
      exact ⟨⟨rfl, rfl⟩, ⟨rfl, rfl⟩⟩
  · have hq1 : q ≠ st.period + 1 := by
      rwa [trackerStep_period_new league homeId st row hper] at hq
    have hne : st.period + 1 ≠ q := fun he => hq1 he.symm
    rw [trackerStep_of_new_period league homeId st row hper]
    by_cases hmem : row.eventMsgActionType ∈ TEAM_FOUL_INDICATORS
    · rw [if_pos hmem]
      cases hside : (row.player1TeamId == homeId) <;>
        refine ⟨⟨?_, ?_⟩, ⟨?_, ?_⟩⟩ <;>
        simp [turnoverState, (update_marker_other_period hq1).1,
          (update_marker_other_period hq1).2, aget_aset_ne _ _ _ _ hne]
    · rw [if_neg hmem]
      refine ⟨⟨?_, ?_⟩, ⟨?_, ?_⟩⟩ <;>
        simp [turnoverState, aget_aset_ne _ _ _ _ hne]

/-! ## Claims -/

/-- C1: after every processed qualifying foul event, the fouling team's
penalty (bonus) flag equals exactly the recomputed eligibility — foul count
at least 4 in a regulation period (period ≤ 4) or at least 3 in overtime
(period ≥ 5), or at least one last-two-minutes foul (the `l2m` counter
counts exactly the fouls taken with clock ≤ 120 s); this holds for both
teams after any run of the tracker (`penaltyFlagInv`), and, within an
unchanged period, a set flag is never cleared by a later event, so a team
is in the bonus from the first event satisfying the condition through the
rest of the period. -/
theorem c1_bonus_threshold (league : League) (homeId : Nat) (rows : List Event)
    (st : TrackerState) (row : Event) :
    penaltyFlagInv (trackerRun league homeId rows) ∧
    (row.period = st.period → st.homeDict.penalty = true →
      (trackerStep league homeId st row).homeDict.penalty = true) ∧
    (row.period = st.period → st.awayDict.penalty = true →
      (trackerStep league homeId st row).awayDict.penalty = true) ∧
    (row.period = st.period → row.player1TeamId = homeId →
      row.eventMsgActionType ∈ TEAM_FOUL_INDICATORS →
      (trackerStep league homeId st row).homeDict.l2m =
        (if strToTime row.clockMin row.clockSec st.period ≤ TWO_MINUTES then
          st.homeDict.l2m + 1 else st.homeDict.l2m) ∧
      (trackerStep league homeId st row).homeDict.fouls = st.homeDict.fouls + 1) ∧
    (row.period = st.period → row.player1TeamId ≠ homeId →
      row.eventMsgActionType ∈ TEAM_FOUL_INDICATORS →
      (trackerStep league homeId st row).awayDict.l2m =
        (if strToTime row.clockMin row.clockSec st.period ≤ TWO_MINUTES then
          st.awayDict.l2m + 1 else st.awayDict.l2m) ∧
      (trackerStep league homeId st row).awayDict.fouls = st.awayDict.fouls + 1) := by
  refine ⟨foldl_penaltyFlagInv league homeId rows _ (initial_penaltyFlagInv league),
    ?_, ?_, ?_, ?_⟩
  · intro hper hpen
    unfold trackerStep
    rw [if_neg (show ¬ st.period ≠ row.period by simp [hper])]
    by_cases hmem : row.eventMsgActionType ∈ TEAM_FOUL_INDICATORS
    · rw [if_pos hmem]
      cases hside : (row.player1TeamId == homeId)
      · simpa using hpen
      · simpa using update_keeps_penalty _ _ _ _ hpen
    · rw [if_neg hmem]
      exact hpen
  · intro hper hpen
    unfold trackerStep
    rw [if_neg (show ¬ st.period ≠ row.period by simp [hper])]
    by_cases hmem : row.eventMsgActionType ∈ TEAM_FOUL_INDICATORS
    · rw [if_pos hmem]
      cases hside : (row.player1TeamId == homeId)
      · simpa using update_keeps_penalty _ _ _ _ hpen
      · simpa using hpen
    · rw [if_neg hmem]
      exact hpen
  · intro hper hside hmem
    rw [trackerStep_of_same_period league homeId st row hper.symm, if_pos hmem,
      if_pos (beq_iff_eq.mpr hside)]
    constructor
    · simp [update_fst, addFouls_fst, apply_ite FoulDict.l2m]
    · simp [update_fst, addFouls_fst, apply_ite FoulDict.fouls]
  · intro hper hside hmem
    rw [trackerStep_of_same_period league homeId st row hper.symm, if_pos hmem,
      if_neg (by simpa using hside)]
    constructor
    · simp [update_fst, addFouls_fst, apply_ite FoulDict.l2m]
    · simp [update_fst, addFouls_fst, apply_ite FoulDict.fouls]

/-- C1 witness: a concrete in-penalty state stays flagged across a
same-period foul. -/
theorem c1_bonus_threshold_witness :
    (trackerStep nbaLeague 10 exStatePenalty exRowNonShooting).homeDict.penalty = true :=
  (c1_bonus_threshold nbaLeague 10 [] exStatePenalty exRowNonShooting).2.1 rfl rfl

/-- C2: once a team's bonus-entry marker (entry clock time and entry event
number) is set — which is exactly when its penalty flag is up — no later
event processed in that period changes either dictionary; moreover no step
ever writes the marker dictionaries at any key other than the post-step
tracked period, so a marker, once written, survives the rest of the game
and is written at most once per team per period. -/
theorem c2_bonus_entry_idempotent (league : League) (homeId : Nat)
    (st : TrackerState) (row : Event) :
    (row.period = st.period → st.homeDict.penalty = true →
      (trackerStep league homeId st row).homeRec.time = st.homeRec.time ∧
      (trackerStep league homeId st row).homeRec.gameEvent = st.homeRec.gameEvent) ∧
    (row.period = st.period → st.awayDict.penalty = true →
      (trackerStep league homeId st row).awayRec.time = st.awayRec.time ∧
      (trackerStep league homeId st row).awayRec.gameEvent = st.awayRec.gameEvent) ∧
    (∀ q : Nat, q ≠ (trackerStep league homeId st row).period →
      (aget (trackerStep league homeId st row).homeRec.time q = aget st.homeRec.time q ∧
       aget (trackerStep league homeId st row).homeRec.gameEvent q = aget st.homeRec.gameEvent q) ∧
      (aget (trackerStep league homeId st row).awayRec.time q = aget st.awayRec.time q ∧
       aget (trackerStep league homeId st row).awayRec.gameEvent q = aget st.awayRec.gameEvent q)) := by
  refine ⟨?_, ?_, fun q hq => step_marker_other_q league homeId st row q hq⟩
  · intro hper hpen
    rw [trackerStep_of_same_period league homeId st row hper.symm]
    by_cases hmem : row.eventMsgActionType ∈ TEAM_FOUL_INDICATORS
    · rw [if_pos hmem]
      cases hside : (row.player1TeamId == homeId) <;>
        refine ⟨?_, ?_⟩ <;>
        simp [(update_marker_unchanged_of_penalty hpen).1,
          (update_marker_unchanged_of_penalty hpen).2]
    · rw [if_neg hmem]
      exact ⟨rfl, rfl⟩
  · intro hper hpen
    rw [trackerStep_of_same_period league homeId st row hper.symm]
    by_cases hmem : row.eventMsgActionType ∈ TEAM_FOUL_INDICATORS
    · rw [if_pos hmem]
      cases hside : (row.player1TeamId == homeId) <;>
        refine ⟨?_, ?_⟩ <;>
        simp [(update_marker_unchanged_of_penalty hpen).1,
          (update_marker_unchanged_of_penalty hpen).2]
    · rw [if_neg hmem]
      exact ⟨rfl, rfl⟩

/-- C2 witness: a concrete flagged team's marker dictionaries are unchanged
by a further same-period foul. -/
theorem c2_bonus_entry_idempotent_witness :
    (trackerStep nbaLeague 10 exStatePenalty exRowNonShooting).homeRec.time =
      exStatePenalty.homeRec.time ∧
    (trackerStep nbaLeague 10 exStatePenalty exRowNonShooting).homeRec.gameEvent =
      exStatePenalty.homeRec.gameEvent :=
  (c2_bonus_entry_idempotent nbaLeague 10 exStatePenalty exRowNonShooting).1 rfl rfl

/-- C3: a qualifying non-shooting foul (action type in {1, 3, 27, 28})
committed by a team whose penalty flag is already up — i.e. whose opponent
is already in the bonus — adds exactly 2 to the free throws recorded for
that period (the tally the aggregator reports as the opponent's
free throws gained); a qualifying foul of any other subtype, or any foul
taken while the flag is still down, leaves the free-throw dictionary
unchanged, and the free-throw entry of a freshly turned-over period is 0
after the turnover step. -/
theorem c3_nonshooting_ft_award (league : League) (homeId : Nat)
    (st : TrackerState) (row : Event) :
    (row.period = st.period → row.player1TeamId = homeId →
      row.eventMsgActionType ∈ TEAM_FOUL_INDICATORS →
      ((st.homeDict.penalty = true → row.eventMsgActionType ∈ NON_SHOOTING_FOULS →
        (aget (trackerStep league homeId st row).homeRec.freeThrows st.period).getD 0 =
          (aget st.homeRec.freeThrows st.period).getD 0 + 2) ∧
       (st.homeDict.penalty = false →
        (trackerStep league homeId st row).homeRec.freeThrows = st.homeRec.freeThrows) ∧
       (row.eventMsgActionType ∉ NON_SHOOTING_FOULS →
        (trackerStep league homeId st row).homeRec.freeThrows = st.homeRec.freeThrows))) ∧
    (row.period = st.period → row.player1TeamId ≠ homeId →
      row.eventMsgActionType ∈ TEAM_FOUL_INDICATORS →
      ((st.awayDict.penalty = true → row.eventMsgActionType ∈ NON_SHOOTING_FOULS →
        (aget (trackerStep league homeId st row).awayRec.freeThrows st.period).getD 0 =
          (aget st.awayRec.freeThrows st.period).getD 0 + 2) ∧
       (st.awayDict.penalty = false →
        (trackerStep league homeId st row).awayRec.freeThrows = st.awayRec.freeThrows) ∧
       (row.eventMsgActionType ∉ NON_SHOOTING_FOULS →
        (trackerStep league homeId st row).awayRec.freeThrows = st.awayRec.freeThrows))) ∧
    (row.period ≠ st.period →
      (aget (trackerStep league homeId st row).homeRec.freeThrows
        (trackerStep league homeId st row).period).getD 0 = 0 ∧
      (aget (trackerStep league homeId st row).awayRec.freeThrows
        (trackerStep league homeId st row).period).getD 0 = 0) := by
  refine ⟨?_, ?_, ?_⟩
  · intro hper hside hmem
    rw [trackerStep_of_same_period league homeId st row hper.symm, if_pos hmem,
      if_pos (beq_iff_eq.mpr hside)]
    refine ⟨fun hpen hns => ?_, fun hpen => ?_, fun hns => ?_⟩
    · simp [update_freeThrows_award hpen hns, aget_aset_self]
    · simp [update_freeThrows_noaward (Or.inl hpen)]
    · simp [update_freeThrows_noaward (Or.inr hns)]
  · intro hper hside hmem
    rw [trackerStep_of_same_period league homeId st row hper.symm, if_pos hmem,
      if_neg (by simpa using hside)]
    refine ⟨fun hpen hns => ?_, fun hpen => ?_, fun hns => ?_⟩
    · simp [update_freeThrows_award hpen hns, aget_aset_self]
    · simp [update_freeThrows_noaward (Or.inl hpen)]
    · simp [update_freeThrows_noaward (Or.inr hns)]
  · intro hper
    have hper' : st.period ≠ row.period := fun he => hper he.symm
    have hstep : (trackerStep league homeId st row).period = st.period + 1 :=
      trackerStep_period_new league homeId st row hper'
    rw [hstep, trackerStep_of_new_period league homeId st row hper']
    by_cases hmem : row.eventMsgActionType ∈ TEAM_FOUL_INDICATORS
    · rw [if_pos hmem]
      have hfresh : (⟨0, 0,
          (if st.period ≤ 4 then (league.quarterLength : Int) else (league.otLength : Int)),
          false⟩ : FoulDict).penalty = false := rfl
      cases hside : (row.player1TeamId == homeId) <;>
        refine ⟨?_, ?_⟩ <;>
        simp [turnoverState, update_freeThrows_noaward (Or.inl hfresh), aget_aset_self]
    · rw [if_neg hmem]
      refine ⟨?_, ?_⟩ <;> simp [turnoverState, aget_aset_self]

/-- C3 witness: a concrete non-shooting foul by the flagged home team adds
exactly two free throws to its period entry. -/
theorem c3_nonshooting_ft_award_witness :
    (aget (trackerStep nbaLeague 10 exStatePenalty exRowNonShooting).homeRec.freeThrows
      1).getD 0 =
      (aget exStatePenalty.homeRec.freeThrows 1).getD 0 + 2 :=
  ((c3_nonshooting_ft_award nbaLeague 10 exStatePenalty exRowNonShooting).1
    rfl rfl (by decide)).1 rfl (by decide)

/-- C4 (amended): a processed foul event whose period differs from the
tracked period stores both teams' terminal foul counts for the tracked
period, resets both foul dicts (foul count 0, last-two-minutes count 0,
penalty flag false), and INCREMENTS the tracked period by one — which
equals the event's period only when that is the successor of the tracked
period; within an unchanged period each team's foul count is
non-decreasing. -/
theorem c4_period_turnover (league : League) (homeId : Nat)
    (st : TrackerState) (row : Event) (hr ar : TeamRecord) :
    (row.period ≠ st.period →
      aget (trackerStep league homeId st row).homeRec.fouls st.period =
        some st.homeDict.fouls ∧
      aget (trackerStep league homeId st row).awayRec.fouls st.period =
        some st.awayDict.fouls ∧
      (trackerStep league homeId st row).period = st.period + 1) ∧
    ((resetStatusVariables league st.period hr ar).1.fouls = 0 ∧
     (resetStatusVariables league st.period hr ar).1.l2m = 0 ∧
     (resetStatusVariables league st.period hr ar).1.penalty = false ∧
     (resetStatusVariables league st.period hr ar).2.1.fouls = 0 ∧
     (resetStatusVariables league st.period hr ar).2.1.l2m = 0 ∧
     (resetStatusVariables league st.period hr ar).2.1.penalty = false) ∧
    (row.period = st.period →
      st.homeDict.fouls ≤ (trackerStep league homeId st row).homeDict.fouls ∧
      st.awayDict.fouls ≤ (trackerStep league homeId st row).awayDict.fouls) := by
  refine ⟨?_, ⟨rfl, rfl, rfl, rfl, rfl, rfl⟩, ?_⟩
  · intro hper
    have hper' : st.period ≠ row.period := fun he => hper he.symm
    have hself : st.period ≠ st.period + 1 := by omega
    refine ⟨?_, ?_, trackerStep_period_new league homeId st row hper'⟩ <;>
      rw [trackerStep_of_new_period league homeId st row hper'] <;>
      by_cases hmem : row.eventMsgActionType ∈ TEAM_FOUL_INDICATORS
    · rw [if_pos hmem]
      cases hside : (row.player1TeamId == homeId) <;>
        simp [turnoverState, update_rec_fouls, aget_aset_self]
    · rw [if_neg hmem]
      simp [turnoverState, aget_aset_self]
    · rw [if_pos hmem]
      cases hside : (row.player1TeamId == homeId) <;>
        simp [turnoverState, update_rec_fouls, aget_aset_self]
    · rw [if_neg hmem]
      simp [turnoverState, aget_aset_self]
  · intro hper
    rw [trackerStep_of_same_period league homeId st row hper.symm]
    by_cases hmem : row.eventMsgActionType ∈ TEAM_FOUL_INDICATORS
    · rw [if_pos hmem]
      cases hside : (row.player1TeamId == homeId) <;>
        refine ⟨?_, ?_⟩ <;>
        simp [update_fst, addFouls_fst, apply_ite FoulDict.fouls]
    · rw [if_neg hmem]
      exact ⟨le_refl _, le_refl _⟩

/-- C4 counterexample: from a tracker in period 1, a foul event of period 3
leaves the tracked period at 2, not at the event's period. -/
theorem c4_tracked_period_counterexample :
    (trackerStep nbaLeague 10 (initialTrackerState nbaLeague) exRowP3).period ≠
      exRowP3.period := by decide

/-- C4 witness: a concrete period-2 foul against a period-1 tracker stores
both terminal counts and moves the tracked period to 2. -/
theorem c4_period_turnover_witness :
    aget (trackerStep nbaLeague 10 exStatePenalty exRowP2).homeRec.fouls 1 =
      some 4 ∧
    aget (trackerStep nbaLeague 10 exStatePenalty exRowP2).awayRec.fouls 1 =
      some 0 ∧
    (trackerStep nbaLeague 10 exStatePenalty exRowP2).period = 2 :=
  (c4_period_turnover nbaLeague 10 exStatePenalty exRowP2 exRecord exRecord).1
    (by decide)

/-- C5: the claim is the spec's intent and the code slips — `reset_status_variables`
chooses the seed with `period <= 4` on the PRE-increment period, so the
reset that begins the first overtime period (new period 5, old period 4)
seeds the regulation quarter length, not the overtime length (for the NBA
league, 720 rather than 300). -/
theorem c5_overtime_seed_uses_pre_increment_period :
    (resetStatusVariables nbaLeague 4 exRecord exRecord).2.2.2.2 = 5 ∧
    (resetStatusVariables nbaLeague 4 exRecord exRecord).1.lastFoulTime =
      (nbaLeague.quarterLength : Int) ∧
    (resetStatusVariables nbaLeague 4 exRecord exRecord).2.1.lastFoulTime =
      (nbaLeague.quarterLength : Int) ∧
    (nbaLeague.quarterLength : Int) ≠ (nbaLeague.otLength : Int) := by
  decide

/-- C6: in the rating output of `process_pbp`, each team's defensive
points, possessions and turnovers for each segment (penalty and
no-penalty) are exactly the opponent's offensive values for the same
segment, and vice versa. -/
theorem c6_mirror_symmetry (events : List Event) (homeId awayId : Nat)
    (homeRec awayRec : TeamRecord) :
    ((processPbp events homeId awayId homeRec awayRec).1.defPointsP =
        (processPbp events homeId awayId homeRec awayRec).2.offPointsP) ∧
    ((processPbp events homeId awayId homeRec awayRec).1.defPossP =
        (processPbp events homeId awayId homeRec awayRec).2.offPossP) ∧
    ((processPbp events homeId awayId homeRec awayRec).1.defTovP =
        (processPbp events homeId awayId homeRec awayRec).2.offTovP) ∧
    ((processPbp events homeId awayId homeRec awayRec).1.defPointsNp =
        (processPbp events homeId awayId homeRec awayRec).2.offPointsNp) ∧
    ((processPbp events homeId awayId homeRec awayRec).1.defPossNp =
        (processPbp events homeId awayId homeRec awayRec).2.offPossNp) ∧
    ((processPbp events homeId awayId homeRec awayRec).1.defTovNp =
        (processPbp events homeId awayId homeRec awayRec).2.offTovNp) ∧
    ((processPbp events homeId awayId homeRec awayRec).2.defPointsP =
        (processPbp events homeId awayId homeRec awayRec).1.offPointsP) ∧
    ((processPbp events homeId awayId homeRec awayRec).2.defPossP =
        (processPbp events homeId awayId homeRec awayRec).1.offPossP) ∧
    ((processPbp events homeId awayId homeRec awayRec).2.defTovP =
        (processPbp events homeId awayId homeRec awayRec).1.offTovP) ∧
    ((processPbp events homeId awayId homeRec awayRec).2.defPointsNp =
        (processPbp events homeId awayId homeRec awayRec).1.offPointsNp) ∧
    ((processPbp events homeId awayId homeRec awayRec).2.defPossNp =
        (processPbp events homeId awayId homeRec awayRec).1.offPossNp) ∧
    ((processPbp events homeId awayId homeRec awayRec).2.defTovNp =
        (processPbp events homeId awayId homeRec awayRec).1.offTovNp) :=
  ⟨rfl, rfl, rfl, rfl, rfl, rfl, rfl, rfl, rfl, rfl, rfl, rfl⟩

/-- C7: `team_foul_tracker` yields a null result (here `none`) exactly for
an event stream with zero events, and a non-null result for any stream
with at least one event. -/
theorem c7_null_game (league : League) (homeId awayId : Nat) (homeWinner : Bool)
    (events : List Event) :
    (teamFoulTracker league homeId awayId homeWinner events).isSome = !events.isEmpty := by
  cases events with
  | nil => rfl
  | cons e rest => simp [teamFoulTracker]

/-- The FGA column sums to the number of rows with EVENTMSGTYPE ≤ 2. -/
theorem fga_sum_eq (rows : List AnnEvent) :
    (rows.map fgaInd).sum =
      (rows.filter (fun a => decide (a.ev.eventMsgType ≤ 2))).length := by
  induction rows with
  | nil => rfl
  | cons a rest ih =>
    by_cases h : a.ev.eventMsgType ≤ 2 <;>
      simp [fgaInd, h, ih, List.filter_cons] <;> omega

/-- The FTA column sums to the number of rows with EVENTMSGTYPE 3. -/
theorem fta_sum_eq (rows : List AnnEvent) :
    (rows.map ftaInd).sum =
      (rows.filter (fun a => decide (a.ev.eventMsgType = 3))).length := by
  induction rows with
  | nil => rfl
  | cons a rest ih =>
    by_cases h : a.ev.eventMsgType = 3 <;>
      simp [ftaInd, h, ih, List.filter_cons] <;> omega

/-- The TOV column sums to the number of rows with EVENTMSGTYPE 5. -/
theorem tov_sum_eq (rows : List AnnEvent) :
    (rows.map tovInd).sum =
      (rows.filter (fun a => decide (a.ev.eventMsgType = 5))).length := by
  induction rows with
  | nil => rfl
  | cons a rest ih =>
    by_cases h : a.ev.eventMsgType = 5 <;>
      simp [tovInd, h, ih, List.filter_cons] <;> omega

/-- The OREB column sums to the number of rebound rows by the carried
shooting team. -/
theorem oreb_sum_eq (rows : List AnnEvent) :
    (rows.map orebInd).sum =
      (rows.filter (fun a =>
        decide (a.ev.eventMsgType = 4 ∧ some a.ev.player1TeamId = a.shootingTeam))).length := by
  induction rows with
  | nil => rfl
  | cons a rest ih =>
    by_cases h : a.ev.eventMsgType = 4 ∧ some a.ev.player1TeamId = a.shootingTeam <;>
      simp [orebInd, h, ih, List.filter_cons] <;> omega

/-- C8: the estimated possession count of any segment is exactly
0.976 × (FGA + 0.44 × FTA − OREB + TOV), computed over `ℚ` with no
rounding, where the four counts are the numbers of rows of the
corresponding event types; on the spec's example segment with FGA=10,
FTA=4, OREB=2, TOV=3 it evaluates to exactly 0.976 × 12.76 = 12.45376. -/
theorem c8_possession_formula :
    (∀ (useHomeDesc : Bool) (rows : List AnnEvent),
      (possessionAndPtsEstimate useHomeDesc rows).2.1 =
        (0.976 : ℚ) *
          (((rows.filter (fun a => decide (a.ev.eventMsgType ≤ 2))).length : ℚ) +
            (0.44 : ℚ) *
              ((rows.filter (fun a => decide (a.ev.eventMsgType = 3))).length : ℚ) -
            ((rows.filter (fun a =>
              decide (a.ev.eventMsgType = 4 ∧ some a.ev.player1TeamId = a.shootingTeam))).length : ℚ) +
            ((rows.filter (fun a => decide (a.ev.eventMsgType = 5))).length : ℚ))) ∧
    (possessionAndPtsEstimate true c8Rows).2.1 = (1245376 : ℚ) / 100000 := by
  constructor
  · intro useHomeDesc rows
    simp only [possessionAndPtsEstimate, fga_sum_eq, fta_sum_eq, oreb_sum_eq, tov_sum_eq]
  · have h10 : (List.map fgaInd c8Rows).sum = 10 := by decide
    have h4 : (List.map ftaInd c8Rows).sum = 4 := by decide
    have h2 : (List.map orebInd c8Rows).sum = 2 := by decide
    have h3 : (List.map tovInd c8Rows).sum = 3 := by decide
    simp only [possessionAndPtsEstimate, h10, h4, h2, h3]
    norm_num

/-- C9: the game length reported in a team's aggregate output row equals
four regulation periods plus one overtime length per period beyond the
fourth, when at least four periods were played. -/
theorem c9_game_length (league : League) (winnerId team otherTeam : Nat)
    (teamRec otherRec : TeamRecord) (h : 4 ≤ teamRec.fouls.length) :
    (processOutputRow league winnerId team otherTeam teamRec otherRec).gameLength =
      4 * (league.quarterLength : Int) +
        ((teamRec.fouls.length : Int) - 4) * (league.otLength : Int) := by
  simp only [processOutputRow, QUARTERS]
  push_cast
  ring

/-- C9 witness: a five-period (one overtime) NBA game has length
4·720 + 1·300. -/
theorem c9_game_length_witness :
    (processOutputRow nbaLeague 1 1 2 exRec5 exRec5).gameLength =
      4 * ((720 : Nat) : Int) + (((5 : Nat) : Int) - 4) * ((300 : Nat) : Int) := by
  have h := c9_game_length nbaLeague 1 1 2 exRec5 exRec5 (by decide)
  simpa [exRec5, nbaLeague] using h

/-- C10: `is_in_penalty` is insensitive to its `penalty` argument (even to
its type — the source's one call site passes an integer): for any two
values passed there, and any stored flag or last-foul time, the returned
flag/threshold pair is identical; it depends only on the foul count, the
last-two-minutes count, and the period. -/
theorem c10_penalty_arg_ignored {α β : Type} (fouls l2m : Nat) (lt1 lt2 : Int)
    (p1 p2 : Bool) (period : Nat) (a : α) (b : β) :
    is_in_penalty ⟨fouls, l2m, lt1, p1⟩ period a =
      is_in_penalty ⟨fouls, l2m, lt2, p2⟩ period b := rfl

end TeamFouls
